import Mathlib

/-!
Verification development for the png2jpgConverter repository.

The repository contains two parallel GUI applications sharing the same
batch image-conversion logic:
  * `main.py` (tkinter): `resize_image`, `ensure_output_directory`,
    `process_files`, `process_files_thread`;
  * `src/ui/converter.py` (kivy) together with
    `src/utils/image_converter.py`: `convert_image`,
    `ensure_output_directory`, `convert_files`, `convert_files_thread`.

The shallow embedding below models:
  * the Python path helpers the code uses (`os.path.basename`,
    `os.path.splitext`, `os.path.join`, `str.strip`, `int(...)` on its
    ASCII core, `str.lower`);
  * decoded PIL images abstractly (mode, pixel size, decoder-reported
    format) and the PIL calls the code performs (`Image.new`, `paste`,
    `convert`, `resize`, `split()[-1]`) as an image-expression tree, so
    the exact compositing call the code makes stays visible;
  * the filesystem as an explicit state (existing entries plus a set of
    paths where directory creation fails); `os.makedirs` is abstracted to
    adding the target path (intermediate-segment creation is not relevant
    to any claim) and is recorded in an operation trace;
  * the UI front ends (`process_files` / `convert_files`) as functions
    producing a trace of UI actions (error popups, the directory check,
    spawning the worker thread);
  * the worker threads as functions producing the ordered list of
    callback events (progress ticks, per-file error popups, closing the
    progress window, the final completion summary), the list of pipeline
    invocations, the success count, and whether the thread died with a
    `NameError` (reading the unassigned local `operation_text`).
-/

namespace Png2Jpg

/-- Python `os.path.basename` on POSIX: the substring after the last `/`. -/
def basename (p : String) : String :=
  String.mk ((p.toList.reverse.takeWhile (fun c => c ≠ '/')).reverse)

/-- Python `os.path.splitext`: split off the extension beginning at the last
dot of the final path component, provided some character of that component
strictly before the dot is not itself a dot (so `.bashrc` has no extension). -/
def splitext (p : String) : String × String :=
  let rev := (basename p).toList.reverse
  let extRev := rev.takeWhile (fun c => c ≠ '.')
  if extRev.length = rev.length then (p, "")
  else
    let pre := rev.drop (extRev.length + 1)
    if pre.any (fun c => c ≠ '.') then
      let extLen := extRev.length + 1
      (String.mk (p.toList.take (p.toList.length - extLen)),
       String.mk (p.toList.drop (p.toList.length - extLen)))
    else (p, "")

/-- Python `os.path.join` on POSIX for two components. -/
def osPathJoin (a b : String) : String :=
  if "/".toList.isPrefixOf b.toList then b
  else if a = "" ∨ "/".toList.isSuffixOf a.toList then a ++ b
  else a ++ "/" ++ b

/-- Python `str.strip()` (whitespace stripping at both ends),
character-list based. -/
def pyStrip (s : String) : String :=
  String.mk (((s.toList.dropWhile Char.isWhitespace).reverse.dropWhile Char.isWhitespace).reverse)

/-- Python `str.lower()` on its ASCII core, character by character. -/
def strLower (s : String) : String := String.mk (s.toList.map Char.toLower)

/-- The ASCII core of Python `int(text)`: optional surrounding whitespace,
optional sign, then a nonempty run of decimal digits; anything else raises
`ValueError`, modelled as `none`. -/
def pyInt (s : String) : Option Int :=
  let t := (pyStrip s).toList
  let signDigs : Int × List Char :=
    match t with
    | '-' :: r => (-1, r)
    | '+' :: r => (1, r)
    | r => (1, r)
  if signDigs.2 ≠ [] ∧ signDigs.2.all (fun c => c.isDigit) then
    some (signDigs.1 *
      (signDigs.2.foldl (fun a c => a * 10 + ((c.toNat - '0'.toNat : Nat) : Int)) 0))
  else none

/-- Python truthiness of an optional integer (`if width and height`):
`None` and `0` are falsy. -/
def pyTruthyInt : Option Int → Bool
  | none => false
  | some n => n != 0

/-- Python truthiness of an optional string (`if not output_format`):
`None` and the empty string are falsy. -/
def optFalsy : Option String → Bool
  | none => true
  | some s => s.isEmpty

/-- A decoded PIL image as `Image.open` reports it: color mode, pixel
dimensions and the decoder-reported native format (`img.format`). -/
structure DecodedImage where
  mode : String
  width : Nat
  height : Nat
  format : Option String
deriving DecidableEq

/-- The resampling filters the code uses (`Image.LANCZOS` /
`Image.Resampling.LANCZOS`). -/
inductive ResampleFilter where
  | lanczos
deriving DecidableEq

/-- PIL image expressions: the image objects the pipeline builds, kept as a
tree so the exact library calls of the source stay visible.  `paste bg src
mask` is `bg.paste(src, mask=mask)` (result is the mutated background),
`lastChannel i` is `i.split()[-1]`, `newImg` is `Image.new`,
`convertMode` is `img.convert(mode)`, `resize` is `img.resize((w, h), f)`. -/
inductive Img where
  | decoded (d : DecodedImage)
  | newImg (mode : String) (width height : Nat) (color : Nat × Nat × Nat)
  | paste (background src mask : Img)
  | convertMode (src : Img) (mode : String)
  | resize (src : Img) (width height : Int) (filter : ResampleFilter)
  | lastChannel (src : Img)
deriving DecidableEq

/-- The color mode of an image expression (a pasted-into background keeps
its own mode; a single split band has mode `L`). -/
def Img.mode : Img → String
  | .decoded d => d.mode
  | .newImg m _ _ _ => m
  | .paste bg _ _ => bg.mode
  | .convertMode _ m => m
  | .resize s _ _ _ => s.mode
  | .lastChannel _ => "L"

/-- The pixel size of an image expression. -/
def Img.size : Img → Int × Int
  | .decoded d => ((d.width : Int), (d.height : Int))
  | .newImg _ w h _ => ((w : Int), (h : Int))
  | .paste bg _ _ => bg.size
  | .convertMode s _ => s.size
  | .resize _ w h _ => (w, h)
  | .lastChannel s => s.size

/-- One `img.save(path, format, quality=...)` call: the output path, the
positional format argument (`none` means PIL infers), the quality keyword
if given, and the image expression being encoded. -/
structure SaveCall where
  path : String
  format : Option String
  quality : Option Nat
  img : Img
deriving DecidableEq

/-- Color-mode normalization of `main.py` `resize_image` (lines 40-45):
flatten alpha images onto a white background of the image's own size when
the effective output format is JPEG, otherwise convert any mode that is
neither RGB nor RGBA to RGB. -/
def normalizeMode (img0 : DecodedImage) (output_format original_format : Option String) :
    Img :=
  if (img0.mode = "RGBA" ∨ img0.mode = "LA")
      ∧ (output_format = some "JPG" ∨ (optFalsy output_format ∧ original_format = some "JPEG")) then
    Img.paste (Img.newImg "RGB" img0.width img0.height (255, 255, 255))
      (Img.decoded img0) (Img.lastChannel (Img.decoded img0))
  else if img0.mode ≠ "RGB" ∧ img0.mode ≠ "RGBA" then
    Img.convertMode (Img.decoded img0) "RGB"
  else Img.decoded img0

/-- Color-mode normalization of `image_converter.py` `convert_image`
(lines 21-26): flatten RGBA/LA onto white, otherwise convert any non-RGB
mode to RGB (output is always JPEG here). -/
def kivyNormalizeMode (img0 : DecodedImage) : Img :=
  if img0.mode = "RGBA" ∨ img0.mode = "LA" then
    Img.paste (Img.newImg "RGB" img0.width img0.height (255, 255, 255))
      (Img.decoded img0) (Img.lastChannel (Img.decoded img0))
  else if img0.mode ≠ "RGB" then
    Img.convertMode (Img.decoded img0) "RGB"
  else Img.decoded img0

/-- The optional resize step (`if width and height: img = img.resize((width,
height), LANCZOS)`), with Python truthiness for the two operands. -/
def applyResize (img1 : Img) (width height : Option Int) : Img :=
  if pyTruthyInt width && pyTruthyInt height then
    Img.resize img1 (width.getD 0) (height.getD 0) .lanczos
  else img1

/-- The straight-line body of `main.py` `resize_image` (lines 35-67) on an
already-decoded image: mode normalization, optional resize, output-name
computation and the exact `save` call issued. -/
def resize_image_plan (img0 : DecodedImage) (file_path output_dir : String)
    (width height : Option Int) (output_format : Option String) : SaveCall :=
  let original_format : Option String := if optFalsy output_format then img0.format else none
  let img1 := normalizeMode img0 output_format original_format
  let img2 := applyResize img1 width height
  let base_name := (splitext (basename file_path)).1
  if output_format = some "JPG" then
    { path := osPathJoin output_dir (base_name ++ ".jpg"),
      format := some "JPEG", quality := some 95, img := img2 }
  else if output_format = some "PNG" then
    { path := osPathJoin output_dir (base_name ++ ".png"),
      format := some "PNG", quality := none, img := img2 }
  else
    let ext := strLower (splitext file_path).2
    let path := osPathJoin output_dir (base_name ++ "_resized" ++ ext)
    if original_format = some "JPEG" then
      { path := path, format := some "JPEG", quality := some 95, img := img2 }
    else
      { path := path, format := original_format, quality := none, img := img2 }

/-- The straight-line body of `image_converter.py` `convert_image`
(lines 19-38): normalization, optional resize, fixed `.jpg` output name and
`save(..., 'JPEG', quality=95)`. -/
def convert_image_plan (img0 : DecodedImage) (file_path output_dir : String)
    (width height : Option Int) : SaveCall :=
  let img1 := kivyNormalizeMode img0
  let img2 := applyResize img1 width height
  { path := osPathJoin output_dir ((splitext (basename file_path)).1 ++ ".jpg"),
    format := some "JPEG", quality := some 95, img := img2 }

/-- The runtime environment of a single-file pipeline call: what
`Image.open` yields for a path (`.error` models a raised decode failure)
and whether an `img.save` call succeeds (`.error` models an encoder or I/O
failure with its message). -/
structure PipelineEnv where
  openImage : String → Except String DecodedImage
  saveImage : SaveCall → Except String Unit

/-- The body of `main.py` `resize_image` inside its `try`: decode, build and
issue the save call, return it (its `path` field is the returned path). -/
def resize_image_run (env : PipelineEnv) (file_path output_dir : String)
    (width height : Option Int) (output_format : Option String) :
    Except String SaveCall := do
  let img0 ← env.openImage file_path
  let call := resize_image_plan img0 file_path output_dir width height output_format
  let _ ← env.saveImage call
  pure call

/-- `main.py` `resize_image` (lines 19-71): any failure inside the `try` is
re-raised as `Exception('Error processing {file_path}: {str(e)}')`. -/
def resize_image (env : PipelineEnv) (file_path output_dir : String)
    (width height : Option Int) (output_format : Option String) :
    Except String String :=
  match resize_image_run env file_path output_dir width height output_format with
  | .ok call => .ok call.path
  | .error e => .error ("Error processing " ++ file_path ++ ": " ++ e)

/-- The body of `convert_image` inside its `try`. -/
def convert_image_run (env : PipelineEnv) (file_path output_dir : String)
    (width height : Option Int) : Except String SaveCall := do
  let img0 ← env.openImage file_path
  let call := convert_image_plan img0 file_path output_dir width height
  let _ ← env.saveImage call
  pure call

/-- `image_converter.py` `convert_image` (lines 4-40): any failure inside
the `try` is re-raised as `Exception('Error converting {file_path}:
{str(e)}')`. -/
def convert_image (env : PipelineEnv) (file_path output_dir : String)
    (width height : Option Int) : Except String String :=
  match convert_image_run env file_path output_dir width height with
  | .ok call => .ok call.path
  | .error e => .error ("Error converting " ++ file_path ++ ": " ++ e)

/-- Filesystem operations the directory helper performs, recorded as a
trace. -/
inductive FsOp where
  | makedirsCall (p : String)
deriving DecidableEq

/-- Filesystem state: the existing entries, the paths where directory
creation fails (permissions, collision with a file, ...), and the message
`str(e)` carried by the raised `OSError` for such a path. -/
structure FS where
  dirs : List String
  blocked : List String
  mkdirErr : String → String

/-- `os.path.exists`. -/
def FS.pathExists (fs : FS) (p : String) : Bool := fs.dirs.contains p

/-- `os.makedirs`, abstracted to adding the target path on success
(creation of intermediate segments is not relevant to any claim). -/
def FS.makedirs (fs : FS) (p : String) : Except String FS :=
  if fs.blocked.contains p then .error (fs.mkdirErr p)
  else .ok { fs with dirs := p :: fs.dirs }

/-- `ensure_output_directory` (identical in `main.py` lines 73-87 and
`image_converter.py` lines 42-56): create the directory when it does not
exist, wrapping a creation failure as `Exception('Error creating output
directory: {str(e)}')`.  The second component records the `os.makedirs`
calls performed. -/
def ensure_output_directory (fs : FS) (output_dir : String) :
    Except String FS × List FsOp :=
  if fs.pathExists output_dir then (.ok fs, [])
  else
    match fs.makedirs output_dir with
    | .ok fs2 => (.ok fs2, [.makedirsCall output_dir])
    | .error e => (.error ("Error creating output directory: " ++ e), [.makedirsCall output_dir])

/-- The two operation modes of the tkinter app (radio buttons with values
`"convert"` and `"resize_jpg"`; the `StringVar` holds no other value). -/
inductive Op where
  | convert
  | resize_jpg
deriving DecidableEq

/-- The `output_format` argument `process_files_thread` passes to
`resize_image` for each operation mode. -/
def opFormat : Op → Option String
  | .convert => some "JPG"
  | .resize_jpg => none

/-- The word `operation_text` is set to on a successful conversion. -/
def opText : Op → String
  | .convert => "converted"
  | .resize_jpg => "resized"

/-- UI actions the front-end button handlers perform, in order: error
popups, the output-directory check, and spawning the background worker
(with the arguments it is given). -/
inductive UiAction where
  | showError (msg : String)
  | ensureDir (d : String)
  | spawnWorker (files : List String) (output_dir : String)
      (width height : Option Int) (op : Op)
  | spawnConvert (files : List String) (output_dir : String)
      (width height : Option Int)
deriving DecidableEq

/-- The default output directory `os.path.expanduser('~/Pictures')`,
parameterized by the home directory. -/
def defaultDir (home : String) : String := home ++ "/Pictures"

/-- The effective output directory: the stripped text field, or the
default when the stripped text is empty (`output_dir =
self.output_path.get().strip()`; `if not output_dir: output_dir =
os.path.expanduser('~/Pictures')`). -/
def outputDirOf (home outText : String) : String :=
  if (pyStrip outText).isEmpty then defaultDir home else pyStrip outText

/-- Parsing of one raw width/height text field as the front ends do it:
`int(text) if text.strip() else None`, with `ValueError` as `.error ()`. -/
def parseSizeField (s : String) : Except Unit (Option Int) :=
  if (pyStrip s).isEmpty then .ok none
  else
    match pyInt s with
    | some n => .ok (some n)
    | none => .error ()

/-- `main.py` `process_files` (lines 452-523) up to starting the thread:
empty-selection check, output-directory defaulting and creation check,
width/height parsing, then spawning `process_files_thread`.  Window and
progress-bar construction carries no logic and is omitted from the trace. -/
def process_files (fs : FS) (home : String) (selected_files : List String)
    (outText wText hText : String) (op : Op) : List UiAction :=
  if selected_files.isEmpty then [.showError "Please select at least one file"]
  else
    match (ensure_output_directory fs (outputDirOf home outText)).1 with
    | .error e => [.ensureDir (outputDirOf home outText), .showError e]
    | .ok _ =>
      match parseSizeField wText with
      | .error _ => [.ensureDir (outputDirOf home outText),
          .showError "Please enter valid numbers for width and height"]
      | .ok w =>
        match parseSizeField hText with
        | .error _ => [.ensureDir (outputDirOf home outText),
            .showError "Please enter valid numbers for width and height"]
        | .ok h => [.ensureDir (outputDirOf home outText),
            .spawnWorker selected_files (outputDirOf home outText) w h op]

/-- `converter.py` `convert_files` (lines 319-353) up to starting the
thread; identical to `process_files` except for the empty-selection message
and the worker spawned. -/
def convert_files (fs : FS) (home : String) (selected_files : List String)
    (outText wText hText : String) : List UiAction :=
  if selected_files.isEmpty then [.showError "Please select at least one PNG file"]
  else
    match (ensure_output_directory fs (outputDirOf home outText)).1 with
    | .error e => [.ensureDir (outputDirOf home outText), .showError e]
    | .ok _ =>
      match parseSizeField wText with
      | .error _ => [.ensureDir (outputDirOf home outText),
          .showError "Please enter valid numbers for width and height"]
      | .ok w =>
        match parseSizeField hText with
        | .error _ => [.ensureDir (outputDirOf home outText),
            .showError "Please enter valid numbers for width and height"]
        | .ok h => [.ensureDir (outputDirOf home outText),
            .spawnConvert selected_files (outputDirOf home outText) w h]

/-- Callback events a worker thread emits, in order: a progress-dialog
update, an error popup, closing the progress dialog, and the final
completion-summary status update. -/
inductive Ev where
  | progress (text : String)
  | errorPopup (msg : String)
  | closeProgress
  | complete (text : String)
deriving DecidableEq

/-- Whether an event is the completion summary. -/
def isComplete : Ev → Bool
  | .complete _ => true
  | _ => false

/-- Whether an `Except` result is a success. -/
def exceptOk {ε α : Type} : Except ε α → Bool
  | .ok _ => true
  | .error _ => false

/-- The runtime environment of a worker thread: `os.path.exists` plus the
single-file pipeline environment. -/
structure WEnv where
  pathExists : String → Bool
  pipe : PipelineEnv

/-- Accumulated result of the per-file loop: emitted events, the paths on
which the pipeline was invoked, the success count, and whether
`operation_text` was ever assigned (it is assigned exactly on success). -/
structure LoopOut where
  events : List Ev
  calls : List String
  succ : Nat
  anyS : Bool
deriving DecidableEq

/-- The `for` loop of `main.py` `process_files_thread` (lines 530-558):
start tick, existence check (error popup and `continue` when missing),
pipeline call (error popup on failure; success tick and counter increment
on success), file by file in input order. -/
def mainLoop (env : WEnv) (output_dir : String) (w h : Option Int) (op : Op)
    (total : Nat) : Nat → List String → LoopOut
  | _, [] => ⟨[], [], 0, false⟩
  | i, f :: rest =>
    let r := mainLoop env output_dir w h op total (i + 1) rest
    let startEv := Ev.progress
      ("Processing " ++ toString i ++ "/" ++ toString total ++ ": " ++ basename f)
    if env.pathExists f then
      match resize_image env.pipe f output_dir w h (opFormat op) with
      | .ok _ =>
        ⟨startEv ::
           Ev.progress ("Processing " ++ toString i ++ "/" ++ toString total ++ ": " ++ basename f) ::
           r.events,
         f :: r.calls, r.succ + 1, true⟩
      | .error e =>
        ⟨startEv :: Ev.errorPopup ("Error processing " ++ basename f ++ ": " ++ e) :: r.events,
         f :: r.calls, r.succ, r.anyS⟩
    else
      ⟨startEv :: Ev.errorPopup ("File not found: " ++ f) :: r.events,
       r.calls, r.succ, r.anyS⟩

/-- Result of one worker-thread run: the ordered callback events, the
pipeline invocations, the final success count, and whether the thread
raised an uncaught `NameError` building the summary. -/
structure WorkerRun where
  events : List Ev
  calls : List String
  succeeded : Nat
  nameError : Bool
deriving DecidableEq

/-- `main.py` `process_files_thread` (lines 525-565): the per-file loop,
then `close_progress_window()`, then the summary f-string.  The summary
reads the local `operation_text`, which is assigned only on a successful
conversion; when no file succeeded, evaluating the f-string raises
`NameError` in the background thread and no completion status is posted. -/
def process_files_thread (env : WEnv) (files : List String) (output_dir : String)
    (w h : Option Int) (op : Op) : WorkerRun :=
  let total := files.length
  let r := mainLoop env output_dir w h op total 1 files
  if r.anyS then
    { events := r.events ++ [.closeProgress,
        .complete ("Processing complete! " ++ toString r.succ ++ "/" ++ toString total
          ++ " files " ++ opText op ++ " and saved to " ++ output_dir)],
      calls := r.calls, succeeded := r.succ, nameError := false }
  else
    { events := r.events ++ [.closeProgress],
      calls := r.calls, succeeded := r.succ, nameError := true }

/-- The `for` loop of `converter.py` `convert_files_thread`
(lines 360-375): same structure as the tkinter loop, with `convert_image`
as the pipeline, no success tick, and kivy-specific message texts. -/
def kivyLoop (env : WEnv) (output_dir : String) (w h : Option Int)
    (total : Nat) : Nat → List String → LoopOut
  | _, [] => ⟨[], [], 0, false⟩
  | i, f :: rest =>
    let r := kivyLoop env output_dir w h total (i + 1) rest
    let startEv := Ev.progress
      ("Converting " ++ toString i ++ "/" ++ toString total ++ ": " ++ basename f)
    if env.pathExists f then
      match convert_image env.pipe f output_dir w h with
      | .ok _ => ⟨startEv :: r.events, f :: r.calls, r.succ + 1, true⟩
      | .error e =>
        ⟨startEv :: Ev.errorPopup ("Error converting " ++ basename f ++ ": " ++ e) :: r.events,
         f :: r.calls, r.succ, r.anyS⟩
    else
      ⟨startEv :: Ev.errorPopup ("File not found: " ++ f) :: r.events,
       r.calls, r.succ, r.anyS⟩

/-- `converter.py` `convert_files_thread` (lines 355-379): the per-file
loop, then `close_progress_popup()`, then the completion status.  The
summary here uses only `successful_conversions` and `total_files`, both
initialized before the loop, so it is always produced. -/
def convert_files_thread (env : WEnv) (files : List String) (output_dir : String)
    (w h : Option Int) : WorkerRun :=
  let total := files.length
  let r := kivyLoop env output_dir w h total 1 files
  { events := r.events ++ [.closeProgress,
      .complete ("Conversion complete! " ++ toString r.succ ++ "/" ++ toString total
        ++ " files saved to " ++ output_dir)],
    calls := r.calls, succeeded := r.succ, nameError := false }

/-- Whether a file is processed successfully by the tkinter worker: it
exists and the pipeline returns without raising. -/
def mainSucceeds (env : WEnv) (output_dir : String) (w h : Option Int) (op : Op)
    (f : String) : Bool :=
  env.pathExists f && exceptOk (resize_image env.pipe f output_dir w h (opFormat op))

/-- A worker environment in which no source file exists. -/
def envAllMissing : WEnv :=
  { pathExists := fun _ => false,
    pipe := { openImage := fun _ => .error "cannot identify image file",
              saveImage := fun _ => .ok () } }

/-- A worker environment in which every file exists, decodes as a small
RGB PNG, and saves successfully. -/
def envAllOk : WEnv :=
  { pathExists := fun _ => true,
    pipe := { openImage := fun _ => .ok ⟨"RGB", 8, 8, some "PNG"⟩,
              saveImage := fun _ => .ok () } }

/-- A string carries another when the latter occurs contiguously in it. -/
def strCarries (msg part : String) : Prop := ∃ a b, msg = a ++ part ++ b

/-- The flattening expression both pipelines build for an alpha image: a
white RGB background with the image's own pixel dimensions, pasted with the
image itself using its last split band (the alpha channel) as the mask. -/
def flattened (img0 : DecodedImage) : Img :=
  Img.paste (Img.newImg "RGB" img0.width img0.height (255, 255, 255))
    (Img.decoded img0) (Img.lastChannel (Img.decoded img0))

lemma resize_image_plan_img (img0 : DecodedImage) (fp od : String)
    (w h : Option Int) (fmt : Option String) :
    (resize_image_plan img0 fp od w h fmt).img
      = applyResize (normalizeMode img0 fmt (if optFalsy fmt then img0.format else none)) w h := by
  simp only [resize_image_plan]
  split_ifs <;> rfl

lemma convert_image_plan_img (img0 : DecodedImage) (fp od : String)
    (w h : Option Int) :
    (convert_image_plan img0 fp od w h).img = applyResize (kivyNormalizeMode img0) w h := rfl

lemma normalizeMode_size (img0 : DecodedImage) (f1 f2 : Option String) :
    (normalizeMode img0 f1 f2).size = ((img0.width : Int), (img0.height : Int)) := by
  unfold normalizeMode
  split_ifs <;> rfl

lemma kivyNormalizeMode_size (img0 : DecodedImage) :
    (kivyNormalizeMode img0).size = ((img0.width : Int), (img0.height : Int)) := by
  unfold kivyNormalizeMode
  split_ifs <;> rfl

/-- C10: `ensure_output_directory` is idempotent: on an initially
non-existent, creatable path the first call creates the directory (one
`os.makedirs` call) and succeeds, and the second call on the resulting
state is a no-op success (no `os.makedirs` call, state returned
unchanged), so across the two calls the directory is created exactly
once. -/
theorem ensure_output_directory_idempotent (fs : FS) (d : String)
    (h1 : fs.pathExists d = false) (h2 : fs.blocked.contains d = false) :
    ∃ fs2 : FS,
      ensure_output_directory fs d = (.ok fs2, [.makedirsCall d])
      ∧ fs2.pathExists d = true
      ∧ ensure_output_directory fs2 d = (.ok fs2, []) := by
  refine ⟨{ fs with dirs := d :: fs.dirs }, ?_, ?_, ?_⟩
  · have h2' : d ∉ fs.blocked := by simpa using h2
    simp [ensure_output_directory, FS.makedirs, h1, h2']
  · simp [FS.pathExists]
  · simp [ensure_output_directory, FS.pathExists]

/-- Witness for C10: a concrete empty filesystem and target path. -/
theorem ensure_output_directory_idempotent_witness :
    ∃ fs2 : FS,
      ensure_output_directory ⟨[], [], fun _ => "EACCES"⟩ "/pics/out"
        = (.ok fs2, [.makedirsCall "/pics/out"])
      ∧ fs2.pathExists "/pics/out" = true
      ∧ ensure_output_directory fs2 "/pics/out" = (.ok fs2, []) :=
  ensure_output_directory_idempotent ⟨[], [], fun _ => "EACCES"⟩ "/pics/out"
    (by decide) (by decide)

/-- C9: any failure inside the single-file pipeline (decode, mode
conversion, resize or encode, i.e. any `.error` of the `try`-body) is
re-raised as a single wrapped error whose message carries both the
original source path and the underlying failure message, in both
`resize_image` (`main.py`) and `convert_image`
(`image_converter.py`). -/
theorem pipeline_error_wrapping (env : PipelineEnv) (fp od : String)
    (w h : Option Int) (fmt : Option String) :
    (∀ e, resize_image_run env fp od w h fmt = .error e →
      resize_image env fp od w h fmt = .error ("Error processing " ++ fp ++ ": " ++ e)
      ∧ strCarries ("Error processing " ++ fp ++ ": " ++ e) fp
      ∧ strCarries ("Error processing " ++ fp ++ ": " ++ e) e)
    ∧ (∀ e, convert_image_run env fp od w h = .error e →
      convert_image env fp od w h = .error ("Error converting " ++ fp ++ ": " ++ e)
      ∧ strCarries ("Error converting " ++ fp ++ ": " ++ e) fp
      ∧ strCarries ("Error converting " ++ fp ++ ": " ++ e) e) := by
  constructor
  · intro e he
    refine ⟨by simp [resize_image, he], ⟨"Error processing ", ": " ++ e, ?_⟩,
      ⟨"Error processing " ++ fp ++ ": ", "", (String.append_empty _).symm⟩⟩
    rw [String.append_assoc]
  · intro e he
    refine ⟨by simp [convert_image, he], ⟨"Error converting ", ": " ++ e, ?_⟩,
      ⟨"Error converting " ++ fp ++ ": ", "", (String.append_empty _).symm⟩⟩
    rw [String.append_assoc]

/-- Witness for C9: a pipeline environment whose decode step fails with a
concrete message. -/
theorem pipeline_error_wrapping_witness :
    resize_image
        ⟨fun _ => .error "broken header", fun _ => .ok ()⟩
        "/in/a.png" "/out" none none (some "JPG")
      = .error ("Error processing " ++ "/in/a.png" ++ ": " ++ "broken header")
    ∧ strCarries ("Error processing " ++ "/in/a.png" ++ ": " ++ "broken header") "/in/a.png"
    ∧ strCarries ("Error processing " ++ "/in/a.png" ++ ": " ++ "broken header") "broken header" :=
  (pipeline_error_wrapping ⟨fun _ => .error "broken header", fun _ => .ok ()⟩
    "/in/a.png" "/out" none none (some "JPG")).1 "broken header" rfl

lemma normalizeMode_eq_flattened (img0 : DecodedImage) (fmt : Option String)
    (halpha : img0.mode = "RGBA" ∨ img0.mode = "LA")
    (hjpeg : fmt = some "JPG" ∨ (fmt = none ∧ img0.format = some "JPEG")) :
    normalizeMode img0 fmt (if optFalsy fmt then img0.format else none) = flattened img0 := by
  have hcond : (img0.mode = "RGBA" ∨ img0.mode = "LA")
      ∧ (fmt = some "JPG"
          ∨ (optFalsy fmt ∧ (if optFalsy fmt then img0.format else none) = some "JPEG")) := by
    constructor
    · exact halpha
    · rcases hjpeg with hj | ⟨hf, hj⟩
      · exact Or.inl hj
      · subst hf
        right
        constructor
        · rfl
        · simpa [optFalsy] using hj
  unfold normalizeMode flattened
  rw [if_pos hcond]

lemma kivyNormalizeMode_eq_flattened (img0 : DecodedImage)
    (halpha : img0.mode = "RGBA" ∨ img0.mode = "LA") :
    kivyNormalizeMode img0 = flattened img0 := by
  unfold kivyNormalizeMode flattened
  rw [if_pos halpha]

lemma applyResize_shape (i : Img) (w h : Option Int) :
    applyResize i w h = i
    ∨ ∃ rw rh, applyResize i w h = Img.resize i rw rh .lanczos := by
  unfold applyResize
  split_ifs
  · exact Or.inr ⟨w.getD 0, h.getD 0, rfl⟩
  · exact Or.inl rfl

lemma applyResize_mode (i : Img) (w h : Option Int) :
    (applyResize i w h).mode = i.mode := by
  unfold applyResize
  split_ifs <;> rfl

/-- C4: for every decoded image whose mode has an alpha channel (RGBA or
LA), when the effective output format is JPEG (explicitly requested, or no
format requested and the source's native format is JPEG), both pipelines
composite the image onto an opaque white background of the image's own
pixel dimensions using the image's alpha channel (`split()[-1]`) as the
mask before encoding; the encoded image mode is therefore always RGB, so
JPEG encoding never sees an alpha channel. -/
theorem jpeg_alpha_flattened (img0 : DecodedImage) (fp od : String)
    (w h : Option Int) (fmt : Option String)
    (halpha : img0.mode = "RGBA" ∨ img0.mode = "LA")
    (hjpeg : fmt = some "JPG" ∨ (fmt = none ∧ img0.format = some "JPEG")) :
    ((resize_image_plan img0 fp od w h fmt).img = flattened img0
      ∨ ∃ rw rh, (resize_image_plan img0 fp od w h fmt).img
          = Img.resize (flattened img0) rw rh .lanczos)
    ∧ (resize_image_plan img0 fp od w h fmt).img.mode = "RGB"
    ∧ ((convert_image_plan img0 fp od w h).img = flattened img0
      ∨ ∃ rw rh, (convert_image_plan img0 fp od w h).img
          = Img.resize (flattened img0) rw rh .lanczos)
    ∧ (convert_image_plan img0 fp od w h).img.mode = "RGB" := by
  have h1 := resize_image_plan_img img0 fp od w h fmt
  rw [normalizeMode_eq_flattened img0 fmt halpha hjpeg] at h1
  have h2 := convert_image_plan_img img0 fp od w h
  rw [kivyNormalizeMode_eq_flattened img0 halpha] at h2
  refine ⟨h1 ▸ applyResize_shape (flattened img0) w h, ?_,
    h2 ▸ applyResize_shape (flattened img0) w h, ?_⟩
  · rw [h1, applyResize_mode]; rfl
  · rw [h2, applyResize_mode]; rfl

/-- Witness for C4: a 32x32 RGBA PNG converted with explicit JPEG output. -/
theorem jpeg_alpha_flattened_witness :
    ((resize_image_plan ⟨"RGBA", 32, 32, some "PNG"⟩ "/in/a.png" "/out" none none (some "JPG")).img
        = flattened ⟨"RGBA", 32, 32, some "PNG"⟩
      ∨ ∃ rw rh, (resize_image_plan ⟨"RGBA", 32, 32, some "PNG"⟩ "/in/a.png" "/out" none none (some "JPG")).img
          = Img.resize (flattened ⟨"RGBA", 32, 32, some "PNG"⟩) rw rh .lanczos)
    ∧ (resize_image_plan ⟨"RGBA", 32, 32, some "PNG"⟩ "/in/a.png" "/out" none none (some "JPG")).img.mode = "RGB"
    ∧ ((convert_image_plan ⟨"RGBA", 32, 32, some "PNG"⟩ "/in/a.png" "/out" none none).img
        = flattened ⟨"RGBA", 32, 32, some "PNG"⟩
      ∨ ∃ rw rh, (convert_image_plan ⟨"RGBA", 32, 32, some "PNG"⟩ "/in/a.png" "/out" none none).img
          = Img.resize (flattened ⟨"RGBA", 32, 32, some "PNG"⟩) rw rh .lanczos)
    ∧ (convert_image_plan ⟨"RGBA", 32, 32, some "PNG"⟩ "/in/a.png" "/out" none none).img.mode = "RGB" :=
  jpeg_alpha_flattened ⟨"RGBA", 32, 32, some "PNG"⟩ "/in/a.png" "/out" none none (some "JPG")
    (Or.inl rfl) (Or.inl rfl)

/-- C5: with both target dimensions set (to positive integers, per the
request data model) the pipelines resize to exactly that pixel size with
the Lanczos filter; with only one of the two set the resize step is
skipped entirely — the resulting save call is identical to the one with no
size request at all and the image keeps its decoded dimensions. -/
theorem resize_exact_or_skipped (img0 : DecodedImage) (fp od : String)
    (fmt : Option String) (w h : Int) (hw : 0 < w) (hh : 0 < h) :
    ((∃ base, (resize_image_plan img0 fp od (some w) (some h) fmt).img
        = Img.resize base w h .lanczos)
      ∧ (resize_image_plan img0 fp od (some w) (some h) fmt).img.size = (w, h)
      ∧ resize_image_plan img0 fp od (some w) none fmt = resize_image_plan img0 fp od none none fmt
      ∧ resize_image_plan img0 fp od none (some h) fmt = resize_image_plan img0 fp od none none fmt
      ∧ (resize_image_plan img0 fp od (some w) none fmt).img.size
          = ((img0.width : Int), (img0.height : Int))
      ∧ (resize_image_plan img0 fp od none (some h) fmt).img.size
          = ((img0.width : Int), (img0.height : Int)))
    ∧ ((∃ base, (convert_image_plan img0 fp od (some w) (some h)).img
        = Img.resize base w h .lanczos)
      ∧ (convert_image_plan img0 fp od (some w) (some h)).img.size = (w, h)
      ∧ convert_image_plan img0 fp od (some w) none = convert_image_plan img0 fp od none none
      ∧ convert_image_plan img0 fp od none (some h) = convert_image_plan img0 fp od none none
      ∧ (convert_image_plan img0 fp od (some w) none).img.size
          = ((img0.width : Int), (img0.height : Int))) := by
  have htw : pyTruthyInt (some w) = true := by
    simp only [pyTruthyInt, bne_iff_ne, ne_eq, decide_eq_true_eq]
    omega
  have hth : pyTruthyInt (some h) = true := by
    simp only [pyTruthyInt, bne_iff_ne, ne_eq, decide_eq_true_eq]
    omega
  have hboth : ∀ i : Img, applyResize i (some w) (some h) = Img.resize i w h .lanczos := by
    intro i
    unfold applyResize
    rw [if_pos (by rw [htw, hth]; rfl)]
    rfl
  have hskipW : ∀ i : Img, applyResize i (some w) none = i := by
    intro i; simp [applyResize, pyTruthyInt]
  have hskipH : ∀ i : Img, applyResize i none (some h) = i := by
    intro i; simp [applyResize, pyTruthyInt]
  have hskipN : ∀ i : Img, applyResize i none none = i := by
    intro i; simp [applyResize, pyTruthyInt]
  refine ⟨⟨?_, ?_, ?_, ?_, ?_, ?_⟩, ⟨?_, ?_, ?_, ?_, ?_⟩⟩
  · exact ⟨_, by rw [resize_image_plan_img, hboth]⟩
  · rw [resize_image_plan_img, hboth]; rfl
  · simp [resize_image_plan, hskipW, hskipN]
  · simp [resize_image_plan, hskipH, hskipN]
  · rw [resize_image_plan_img, hskipW, normalizeMode_size]
  · rw [resize_image_plan_img, hskipH, normalizeMode_size]
  · exact ⟨_, by rw [convert_image_plan_img, hboth]⟩
  · rw [convert_image_plan_img, hboth]; rfl
  · simp [convert_image_plan, hskipW, hskipN]
  · simp [convert_image_plan, hskipH, hskipN]
  · rw [convert_image_plan_img, hskipW, kivyNormalizeMode_size]

/-- Witness for C5: a 100x50 RGB JPEG resized to 16x16. -/
theorem resize_exact_or_skipped_witness :
    (∃ base, (resize_image_plan ⟨"RGB", 100, 50, some "JPEG"⟩ "/in/c.jpg" "/out"
        (some 16) (some 16) none).img = Img.resize base 16 16 .lanczos)
    ∧ (resize_image_plan ⟨"RGB", 100, 50, some "JPEG"⟩ "/in/c.jpg" "/out"
        (some 16) none none).img.size = ((100 : Int), (50 : Int)) :=
  ⟨(resize_exact_or_skipped ⟨"RGB", 100, 50, some "JPEG"⟩ "/in/c.jpg" "/out" none 16 16
      (by decide) (by decide)).1.1,
   (resize_exact_or_skipped ⟨"RGB", 100, 50, some "JPEG"⟩ "/in/c.jpg" "/out" none 16 16
      (by decide) (by decide)).1.2.2.2.2.1⟩

/-- C6 counterexample: for the source `/in/Photo.PNG` with no format
directive (KeepOriginal), the code writes `Photo_resized.png` — the
original extension folded to lower case by `ext.lower()` — not
`Photo_resized.PNG` with the original extension as the claim states. -/
theorem keep_original_lowercases_extension :
    (resize_image_plan ⟨"RGB", 4, 4, some "PNG"⟩ "/in/Photo.PNG" "/out" none none none).path
        = "/out/Photo_resized.png"
    ∧ (resize_image_plan ⟨"RGB", 4, 4, some "PNG"⟩ "/in/Photo.PNG" "/out" none none none).path
        ≠ "/out/Photo_resized.PNG" := by
  constructor
  · decide
  · decide

/-- C6 amended: output naming and encoding per directive — `JPG` gives
`<base>.jpg` as JPEG quality 95; `PNG` gives `<base>.png` as PNG with
default settings; KeepOriginal (no directive) gives
`<base>_resized<original-extension-lowercased>`, encoded as JPEG quality
95 when the source decoded as JPEG and otherwise in the decoder-reported
native format with default settings; the kivy pipeline always writes
`<base>.jpg` as JPEG quality 95. -/
theorem output_naming (img0 : DecodedImage) (fp od : String) (w h : Option Int) :
    ((resize_image_plan img0 fp od w h (some "JPG")).path
        = osPathJoin od ((splitext (basename fp)).1 ++ ".jpg")
      ∧ (resize_image_plan img0 fp od w h (some "JPG")).format = some "JPEG"
      ∧ (resize_image_plan img0 fp od w h (some "JPG")).quality = some 95)
    ∧ ((resize_image_plan img0 fp od w h (some "PNG")).path
        = osPathJoin od ((splitext (basename fp)).1 ++ ".png")
      ∧ (resize_image_plan img0 fp od w h (some "PNG")).format = some "PNG"
      ∧ (resize_image_plan img0 fp od w h (some "PNG")).quality = none)
    ∧ ((resize_image_plan img0 fp od w h none).path
        = osPathJoin od ((splitext (basename fp)).1 ++ "_resized" ++ strLower (splitext fp).2)
      ∧ (img0.format = some "JPEG" →
          (resize_image_plan img0 fp od w h none).format = some "JPEG"
          ∧ (resize_image_plan img0 fp od w h none).quality = some 95)
      ∧ (img0.format ≠ some "JPEG" →
          (resize_image_plan img0 fp od w h none).format = img0.format
          ∧ (resize_image_plan img0 fp od w h none).quality = none))
    ∧ ((convert_image_plan img0 fp od w h).path
        = osPathJoin od ((splitext (basename fp)).1 ++ ".jpg")
      ∧ (convert_image_plan img0 fp od w h).format = some "JPEG"
      ∧ (convert_image_plan img0 fp od w h).quality = some 95) := by
  refine ⟨⟨?_, ?_, ?_⟩, ⟨?_, ?_, ?_⟩, ⟨?_, ?_, ?_⟩, ?_, ?_, ?_⟩
  · simp [resize_image_plan]
  · simp [resize_image_plan]
  · simp [resize_image_plan]
  · simp [resize_image_plan]
  · simp [resize_image_plan]
  · simp [resize_image_plan]
  · by_cases hf2 : img0.format = some "JPEG" <;> simp [resize_image_plan, optFalsy, hf2]
  · intro hf
    constructor <;> simp [resize_image_plan, optFalsy, hf]
  · intro hf
    constructor <;> simp [resize_image_plan, optFalsy, hf]
  · rfl
  · rfl
  · rfl

/-- Witness for C6 amended: a decoded JPEG source in KeepOriginal mode is
re-encoded as JPEG quality 95. -/
theorem output_naming_witness :
    (resize_image_plan ⟨"RGB", 100, 50, some "JPEG"⟩ "/in/c.jpg" "/tmp/out" none none none).format
        = some "JPEG"
    ∧ (resize_image_plan ⟨"RGB", 100, 50, some "JPEG"⟩ "/in/c.jpg" "/tmp/out" none none none).quality
        = some 95 :=
  (output_naming ⟨"RGB", 100, 50, some "JPEG"⟩ "/in/c.jpg" "/tmp/out" none none).2.2.1.2.1 rfl

lemma process_files_shape (fs : FS) (home : String) (sel : List String)
    (outTxt wTxt hTxt : String) (op : Op) :
    process_files fs home sel outTxt wTxt hTxt op = [.showError "Please select at least one file"]
    ∨ (∃ d e, process_files fs home sel outTxt wTxt hTxt op = [.ensureDir d, .showError e])
    ∨ (∃ d w h, parseSizeField wTxt = .ok w ∧ parseSizeField hTxt = .ok h
        ∧ process_files fs home sel outTxt wTxt hTxt op
            = [.ensureDir d, .spawnWorker sel d w h op]) := by
  unfold process_files
  by_cases hs : sel.isEmpty
  · simp [hs]
  · rw [if_neg (by simpa using hs)]
    split
    · exact Or.inr (Or.inl ⟨_, _, rfl⟩)
    · split
      · exact Or.inr (Or.inl ⟨_, _, rfl⟩)
      · rename_i w hW
        split
        · exact Or.inr (Or.inl ⟨_, _, rfl⟩)
        · rename_i h hH
          exact Or.inr (Or.inr ⟨_, w, h, hW, hH, rfl⟩)

lemma convert_files_shape (fs : FS) (home : String) (sel : List String)
    (outTxt wTxt hTxt : String) :
    convert_files fs home sel outTxt wTxt hTxt = [.showError "Please select at least one PNG file"]
    ∨ (∃ d e, convert_files fs home sel outTxt wTxt hTxt = [.ensureDir d, .showError e])
    ∨ (∃ d w h, parseSizeField wTxt = .ok w ∧ parseSizeField hTxt = .ok h
        ∧ convert_files fs home sel outTxt wTxt hTxt
            = [.ensureDir d, .spawnConvert sel d w h]) := by
  unfold convert_files
  by_cases hs : sel.isEmpty
  · simp [hs]
  · rw [if_neg (by simpa using hs)]
    split
    · exact Or.inr (Or.inl ⟨_, _, rfl⟩)
    · split
      · exact Or.inr (Or.inl ⟨_, _, rfl⟩)
      · rename_i w hW
        split
        · exact Or.inr (Or.inl ⟨_, _, rfl⟩)
        · rename_i h hH
          exact Or.inr (Or.inr ⟨_, w, h, hW, hH, rfl⟩)

/-- C7: validation failures — an empty file selection, non-numeric
width/height text, or an output directory that cannot be created — are
each detected and reported via an error popup with no worker spawned, so
no conversion of any file begins: an empty selection yields exactly the
error popup; a failed directory creation yields exactly the directory
check followed by its error popup; a `ValueError` from either size field
(with the directory check passing) yields exactly the directory check
followed by the invalid-numbers popup.  Conversely, whenever a worker is
spawned the whole trace is exactly one directory check followed by the
spawn, so the directory check happens exactly once, before any per-file
processing, and a run that showed any error never spawns.  Both the
tkinter and the kivy front end are covered. -/
theorem validation_before_worker (fs : FS) (home : String) (sel : List String)
    (outTxt wTxt hTxt : String) (op : Op) :
    (sel = [] →
      process_files fs home sel outTxt wTxt hTxt op
          = [.showError "Please select at least one file"]
      ∧ convert_files fs home sel outTxt wTxt hTxt
          = [.showError "Please select at least one PNG file"])
    ∧ (∀ e, sel ≠ [] →
        (ensure_output_directory fs (outputDirOf home outTxt)).1 = .error e →
        process_files fs home sel outTxt wTxt hTxt op
            = [.ensureDir (outputDirOf home outTxt), .showError e]
        ∧ convert_files fs home sel outTxt wTxt hTxt
            = [.ensureDir (outputDirOf home outTxt), .showError e])
    ∧ (∀ fs2, sel ≠ [] →
        (ensure_output_directory fs (outputDirOf home outTxt)).1 = .ok fs2 →
        (parseSizeField wTxt = .error () ∨ parseSizeField hTxt = .error ()) →
        process_files fs home sel outTxt wTxt hTxt op
            = [.ensureDir (outputDirOf home outTxt),
               .showError "Please enter valid numbers for width and height"]
        ∧ convert_files fs home sel outTxt wTxt hTxt
            = [.ensureDir (outputDirOf home outTxt),
               .showError "Please enter valid numbers for width and height"])
    ∧ (∀ files od w h o,
        UiAction.spawnWorker files od w h o ∈ process_files fs home sel outTxt wTxt hTxt op →
        process_files fs home sel outTxt wTxt hTxt op = [.ensureDir od, .spawnWorker files od w h o])
    ∧ (∀ m, UiAction.showError m ∈ process_files fs home sel outTxt wTxt hTxt op →
        ∀ files od w h o,
          UiAction.spawnWorker files od w h o ∉ process_files fs home sel outTxt wTxt hTxt op)
    ∧ (∀ files od w h,
        UiAction.spawnConvert files od w h ∈ convert_files fs home sel outTxt wTxt hTxt →
        convert_files fs home sel outTxt wTxt hTxt = [.ensureDir od, .spawnConvert files od w h])
    ∧ (∀ m, UiAction.showError m ∈ convert_files fs home sel outTxt wTxt hTxt →
        ∀ files od w h,
          UiAction.spawnConvert files od w h ∉ convert_files fs home sel outTxt wTxt hTxt) := by
  refine ⟨?_, ?_, ?_, ?_, ?_, ?_, ?_⟩
  · intro hsel
    subst hsel
    exact ⟨by simp [process_files], by simp [convert_files]⟩
  · intro e hs hE
    have hs' : sel.isEmpty = false := by
      cases sel with
      | nil => exact absurd rfl hs
      | cons a l => rfl
    constructor
    · unfold process_files
      rw [if_neg (by simp [hs']), hE]
    · unfold convert_files
      rw [if_neg (by simp [hs']), hE]
  · intro fs2 hs hE hbad
    have hs' : sel.isEmpty = false := by
      cases sel with
      | nil => exact absurd rfl hs
      | cons a l => rfl
    rcases hW : parseSizeField wTxt with u | w
    · constructor
      · unfold process_files
        rw [if_neg (by simp [hs']), hE, hW]
      · unfold convert_files
        rw [if_neg (by simp [hs']), hE, hW]
    · rcases hbad with hb | hb
      · rw [hW] at hb
        exact absurd hb (by simp)
      · constructor
        · unfold process_files
          rw [if_neg (by simp [hs']), hE, hW, hb]
        · unfold convert_files
          rw [if_neg (by simp [hs']), hE, hW, hb]
  · intro files od w h o hmem
    rcases process_files_shape fs home sel outTxt wTxt hTxt op with hsh | ⟨d, e, hsh⟩ | ⟨d, w', h', hW, hH, hsh⟩ <;>
      rw [hsh] at hmem ⊢ <;> simp at hmem
    obtain ⟨rfl, rfl, rfl, rfl, rfl⟩ := hmem
    rfl
  · intro m hm files od w h o hsp
    rcases process_files_shape fs home sel outTxt wTxt hTxt op with hsh | ⟨d, e, hsh⟩ | ⟨d, w', h', hW, hH, hsh⟩ <;>
      rw [hsh] at hm hsp <;> simp at hm hsp
  · intro files od w h hmem
    rcases convert_files_shape fs home sel outTxt wTxt hTxt with hsh | ⟨d, e, hsh⟩ | ⟨d, w', h', hW, hH, hsh⟩ <;>
      rw [hsh] at hmem ⊢ <;> simp at hmem
    obtain ⟨rfl, rfl, rfl, rfl⟩ := hmem
    rfl
  · intro m hm files od w h hsp
    rcases convert_files_shape fs home sel outTxt wTxt hTxt with hsh | ⟨d, e, hsh⟩ | ⟨d, w', h', hW, hH, hsh⟩ <;>
      rw [hsh] at hm hsp <;> simp at hm hsp

/-- Witness for C7 at concrete inputs: a non-creatable output directory is
reported after the directory check with no spawn; non-numeric width text
is reported after a passing directory check with no spawn; an empty
selection is rejected outright. -/
theorem validation_before_worker_witness :
    process_files ⟨[], ["/ro/out"], fun _ => "Permission denied"⟩ "/home/u" ["a.png"]
          "/ro/out" "1" "2" .convert
        = [.ensureDir "/ro/out",
           .showError "Error creating output directory: Permission denied"]
    ∧ process_files ⟨["/out"], [], fun _ => "EACCES"⟩ "/home/u" ["a.png"]
          "/out" "abc" "2" .convert
        = [.ensureDir "/out", .showError "Please enter valid numbers for width and height"]
    ∧ process_files ⟨[], [], fun _ => "EACCES"⟩ "/home/u" [] "" "" "" .convert
        = [.showError "Please select at least one file"] :=
  ⟨((validation_before_worker ⟨[], ["/ro/out"], fun _ => "Permission denied"⟩ "/home/u"
        ["a.png"] "/ro/out" "1" "2" .convert).2.1
      "Error creating output directory: Permission denied" (by decide) rfl).1,
   ((validation_before_worker ⟨["/out"], [], fun _ => "EACCES"⟩ "/home/u"
        ["a.png"] "/out" "abc" "2" .convert).2.2.1
      ⟨["/out"], [], fun _ => "EACCES"⟩ (by decide) rfl (Or.inl rfl)).1,
   ((validation_before_worker ⟨[], [], fun _ => "EACCES"⟩ "/home/u" [] "" "" "" .convert).1
      rfl).1⟩

lemma pyInt_of_strip_empty (s : String) (h : (pyStrip s).isEmpty = true) :
    pyInt s = none := by
  have h2 : pyStrip s = "" := (String.isEmpty_iff _).mp h
  simp [pyInt, h2]

/-- C8 counterexample: the width text `"0"` is numeric, so `int("0")`
succeeds and the front end spawns the worker passing width `some 0` to the
pipeline — an accepted, passed-through value that is not a positive
integer, contradicting the claim that accepted values are optional
positive integers. -/
theorem size_parse_accepts_zero :
    process_files ⟨["/out"], [], fun _ => "EACCES"⟩ "/home/u" ["a.png"] "/out" "0" "7" .convert
        = [.ensureDir "/out", .spawnWorker ["a.png"] "/out" (some 0) (some 7) .convert]
    ∧ ¬ (0 : Int) > 0 := by
  constructor
  · decide
  · decide

/-- C8 amended: empty (or whitespace-only) width/height text yields an
absent value; non-numeric text is rejected as a user input error before
the batch starts; and the values accepted and passed to the worker are
optional integers — exactly the parsed values, with positivity not
enforced (zero and negative integers are accepted and passed through). -/
theorem size_field_parsing (wTxt : String) :
    ((pyStrip wTxt).isEmpty = true → parseSizeField wTxt = .ok none)
    ∧ (∀ n : Int, pyInt wTxt = some n → parseSizeField wTxt = .ok (some n))
    ∧ ((pyStrip wTxt).isEmpty = false → pyInt wTxt = none → parseSizeField wTxt = .error ())
    ∧ (∀ fs home sel outTxt hTxt op files od w h o,
        UiAction.spawnWorker files od w h o ∈ process_files fs home sel outTxt wTxt hTxt op →
        parseSizeField wTxt = .ok w)
    ∧ (∀ fs home sel outTxt hTxt files od w h,
        UiAction.spawnConvert files od w h ∈ convert_files fs home sel outTxt wTxt hTxt →
        parseSizeField wTxt = .ok w) := by
  refine ⟨?_, ?_, ?_, ?_, ?_⟩
  · intro h
    simp [parseSizeField, h]
  · intro n hn
    by_cases h : (pyStrip wTxt).isEmpty
    · rw [pyInt_of_strip_empty wTxt h] at hn
      exact absurd hn (by simp)
    · simp [parseSizeField, h, hn]
  · intro h1 h2
    simp [parseSizeField, h1, h2]
  · intro fs home sel outTxt hTxt op files od w h o hmem
    rcases process_files_shape fs home sel outTxt wTxt hTxt op with hsh | ⟨d, e, hsh⟩ | ⟨d, w', h', hW, hH, hsh⟩ <;>
      rw [hsh] at hmem <;> simp at hmem
    obtain ⟨rfl, rfl, rfl, rfl, rfl⟩ := hmem
    exact hW
  · intro fs home sel outTxt hTxt files od w h hmem
    rcases convert_files_shape fs home sel outTxt wTxt hTxt with hsh | ⟨d, e, hsh⟩ | ⟨d, w', h', hW, hH, hsh⟩ <;>
      rw [hsh] at hmem <;> simp at hmem
    obtain ⟨rfl, rfl, rfl, rfl⟩ := hmem
    exact hW

/-- Witness for C8 amended: the text `"-3"` parses to the integer `-3` and
is accepted. -/
theorem size_field_parsing_witness :
    parseSizeField "-3" = .ok (some (-3)) :=
  (size_field_parsing "-3").2.1 (-3) (by decide)

lemma mainLoop_facts (env : WEnv) (output_dir : String) (w h : Option Int)
    (op : Op) (total : Nat) :
    ∀ (files : List String) (i : Nat),
      (mainLoop env output_dir w h op total i files).anyS
          = files.any (mainSucceeds env output_dir w h op)
      ∧ (mainLoop env output_dir w h op total i files).events.countP isComplete = 0 := by
  intro files
  induction files with
  | nil =>
    intro i
    constructor <;> simp [mainLoop]
  | cons f rest ih =>
    intro i
    by_cases hp : env.pathExists f
    · rcases hr : resize_image env.pipe f output_dir w h (opFormat op) with e | c
      · constructor
        · simp [mainLoop, hp, hr, mainSucceeds, exceptOk, (ih (i + 1)).1]
        · simp [mainLoop, hp, hr, isComplete, (ih (i + 1)).2]
      · constructor
        · simp [mainLoop, hp, hr, mainSucceeds, exceptOk]
        · simp [mainLoop, hp, hr, isComplete, (ih (i + 1)).2]
    · constructor
      · simp [mainLoop, hp, mainSucceeds, exceptOk, (ih (i + 1)).1]
      · simp [mainLoop, hp, isComplete, (ih (i + 1)).2]

/-- C2: in the tkinter worker the summary's `operation_text` is assigned
only on a successful conversion, so a batch run with at least one
successful request posts the completion summary exactly once and the
thread terminates normally, while a run in which every request fails
(missing file or pipeline error) reaches the summary step with the
variable unassigned, raises `NameError` in the background thread, and
posts no succeeded/total summary at all. -/
theorem tk_summary_iff_any_success (env : WEnv) (files : List String)
    (output_dir : String) (w h : Option Int) (op : Op) :
    (files.any (mainSucceeds env output_dir w h op) = true →
      (process_files_thread env files output_dir w h op).nameError = false
      ∧ (process_files_thread env files output_dir w h op).events.countP isComplete = 1)
    ∧ (files.any (mainSucceeds env output_dir w h op) = false →
      (process_files_thread env files output_dir w h op).nameError = true
      ∧ (process_files_thread env files output_dir w h op).events.countP isComplete = 0) := by
  have hf := mainLoop_facts env output_dir w h op files.length files 1
  constructor
  · intro ha
    have hAny : (mainLoop env output_dir w h op files.length 1 files).anyS = true :=
      hf.1.trans ha
    constructor
    · simp [process_files_thread, hAny]
    · simp [process_files_thread, hAny, List.countP_append, hf.2, isComplete]
  · intro ha
    have hAny : (mainLoop env output_dir w h op files.length 1 files).anyS = false :=
      hf.1.trans ha
    constructor
    · simp [process_files_thread, hAny]
    · simp [process_files_thread, hAny, List.countP_append, hf.2, isComplete]

/-- Witness for C2: a one-file batch that succeeds posts the summary once;
the theorem applied to a concrete succeeding environment. -/
theorem tk_summary_iff_any_success_witness :
    (process_files_thread envAllOk ["a.png"] "/out" none none .convert).nameError = false
    ∧ (process_files_thread envAllOk ["a.png"] "/out" none none .convert).events.countP isComplete
        = 1 :=
  (tk_summary_iff_any_success envAllOk ["a.png"] "/out" none none .convert).1 (by decide)

/-- C1 at its failing input: over the batch `["missing.png"]` in which
every request fails (the file does not exist), the tkinter worker emits no
completion summary at all — the summary f-string reads the unassigned
local `operation_text` and the thread dies with `NameError` — while the
kivy worker emits the summary exactly once, as the last callback.  This
refutes the claim that the completion summary is emitted exactly once
after every batch run; the claim matches the evident intent (the kivy
worker's behavior), and the tkinter code's unassigned-variable read is a
slip. -/
theorem tk_all_failure_batch_no_summary :
    (process_files_thread envAllMissing ["missing.png"] "/out" none none .convert).events.countP
        isComplete = 0
    ∧ (process_files_thread envAllMissing ["missing.png"] "/out" none none .convert).nameError
        = true
    ∧ (convert_files_thread envAllMissing ["missing.png"] "/out" none none).events.countP
        isComplete = 1
    ∧ (convert_files_thread envAllMissing ["missing.png"] "/out" none none).events.getLast?
        = some (.complete "Conversion complete! 0/1 files saved to /out") := by
  refine ⟨by decide, by decide, by decide, by decide⟩

/-- C3 at its failing input: a batch of one missing file and zero valid
files (N = 1).  Both workers check existence before the pipeline (no
pipeline call is recorded), emit exactly one per-file error with the
file-not-found message, and do not count a success; but the tkinter worker
then raises `NameError` and never reports the claimed `0 succeeded out of
1` summary, while the kivy worker reports `Conversion complete! 0/1`. -/
theorem tk_single_missing_file_trace :
    (process_files_thread envAllMissing ["b.png"] "/tmp/out" none none .convert).events
        = [.progress "Processing 1/1: b.png", .errorPopup "File not found: b.png", .closeProgress]
    ∧ (process_files_thread envAllMissing ["b.png"] "/tmp/out" none none .convert).calls = []
    ∧ (process_files_thread envAllMissing ["b.png"] "/tmp/out" none none .convert).succeeded = 0
    ∧ (process_files_thread envAllMissing ["b.png"] "/tmp/out" none none .convert).nameError = true
    ∧ (convert_files_thread envAllMissing ["b.png"] "/tmp/out" none none).events
        = [.progress "Converting 1/1: b.png", .errorPopup "File not found: b.png", .closeProgress,
           .complete "Conversion complete! 0/1 files saved to /tmp/out"] := by
  refine ⟨by decide, by decide, by decide, by decide, by decide⟩

end Png2Jpg
